import Mathlib

/-!
Formal model of the baton-avalara connector's API client and resource
mappers, translated from the Go sources (`pkg/client`, `pkg/connector`).
Network I/O and JSON parsing by the standard library are abstracted as
oracle parameters (the outcome of the HTTP round-trip, the outcome of a
`json.Unmarshal` call); everything the repository's own code computes is
modelled executably.
-/

namespace Avalara

/-! ## Client constants (client.go) -/

def SandboxBaseDomain : String := "sandbox-rest.avatax.com"

def ProductionBaseURL : String := "https://rest.avatax.com"

def SandboxBaseURL : String := "https://sandbox-rest.avatax.com"

def TestBaseURL : String := "http://localhost:8080"

/-- `PaginationOptions` from client.go: page size, offset, sort, filter and
the opaque continuation link.  Go zero values are the field defaults. -/
structure PaginationOptions where
  top : Int := 0
  skip : Int := 0
  orderBy : String := ""
  filter : String := ""
  nextLink : String := ""
  deriving Repr, DecidableEq

/-- ASCII case folding of one character, the fragment of Go's
`strings.ToLower` relevant to environment selectors. -/
def asciiLower (c : Char) : Char :=
  if 'A' ≤ c ∧ c ≤ 'Z' then Char.ofNat (c.toNat + 32) else c

/-- `strings.ToLower` (ASCII fragment). -/
def strToLower (s : String) : String := String.mk (s.data.map asciiLower)

/-- Character-list prefix test underlying `strings.HasPrefix`. -/
def listStartsWith : List Char → List Char → Bool
  | _, [] => true
  | [], _ :: _ => false
  | a :: as, b :: bs => a == b && listStartsWith as bs

/-- `strings.HasPrefix s pre`. -/
def strStartsWith (s pre : String) : Bool := listStartsWith s.data pre.data

/-- Base-URL selection performed by `NewAvalaraClient`: an environment
string whose lowercase form starts with "http" is used verbatim as the
base URL; otherwise "sandbox" and "test" select the fixed sandbox and
local-test URLs and anything else falls back to production. -/
def selectBaseURL (environment : String) : String :=
  if strStartsWith (strToLower environment) "http" then environment
  else if environment = "sandbox" then SandboxBaseURL
  else if environment = "test" then TestBaseURL
  else ProductionBaseURL

/-- The fixed client-identification string built by `NewAvalaraClient`
from appName "baton-avalara" and appVersion "1.0.0". -/
def clientIDHeader : String := "baton-avalara; 1.0.0; Go SDK; API_VERSION"

/-- The client configuration state (`AvalaraClient` struct): base URL,
stored Basic-auth credential and the client-identification header.  The
HTTP client collaborator is abstracted away. -/
structure AvalaraClient where
  baseURL : String
  credentials : String := ""
  clientHeader : String
  deriving Repr, DecidableEq

/-- `NewAvalaraClient` (modulo the abstracted HTTP collaborator). -/
def newAvalaraClient (environment : String) : AvalaraClient :=
  { baseURL := selectBaseURL environment
    credentials := ""
    clientHeader := clientIDHeader }

/-! ## Base64 (encoding/base64 StdEncoding, used by AddCredentials) -/

def base64Alphabet : List Char :=
  ("ABCDEFGHIJKLMNOPQRSTUVWXYZabcdefghijklmnopqrstuvwxyz0123456789+/").data

def b64Char (n : Nat) : Char := base64Alphabet.getD n 'A'

/-- RFC 4648 standard base64 of a byte sequence, as implemented by Go's
`base64.StdEncoding.EncodeToString` (with `=` padding). -/
def base64Chars : List Nat → List Char
  | [] => []
  | [a] => [b64Char (a / 4), b64Char (a % 4 * 16), '=', '=']
  | [a, b] => [b64Char (a / 4), b64Char (a % 4 * 16 + b / 16), b64Char (b % 16 * 4), '=']
  | a :: b :: c :: rest =>
      b64Char (a / 4) :: b64Char (a % 4 * 16 + b / 16) ::
      b64Char (b % 16 * 4 + c / 64) :: b64Char (c % 64) :: base64Chars rest

/-- Byte view of a Go string.  For the ASCII strings the spec quantifies
over, each character is one byte equal to its code point. -/
def strBytes (s : String) : List Nat := s.data.map Char.toNat

def base64EncodeString (s : String) : String := String.mk (base64Chars (strBytes s))

/-- `AddCredentials`: stores `base64(username + ":" + password)` in the
client state. -/
def addCredentials (c : AvalaraClient) (username password : String) : AvalaraClient :=
  { c with credentials := base64EncodeString (username ++ ":" ++ password) }

/-- The four headers `get` sets on every request (client.go lines 131-135). -/
def requestHeaders (c : AvalaraClient) : List (String × String) :=
  [("Authorization", "Basic " ++ c.credentials),
   ("X-Avalara-Client", c.clientHeader),
   ("Content-Type", "application/json"),
   ("Accept", "application/json")]

/-! ## Request-target construction (`get`, client.go lines 96-124) -/

/-- The resolved request target: either the continuation link used
verbatim as the full URL (query embedded in the string), or the endpoint
resolved against the base URL together with the encoded query map. -/
inductive RequestTarget where
  | fromNextLink (link : String)
  | fromBase (url : String) (query : List (String × String))
  deriving Repr, DecidableEq

/-- `url.Values.Set`: replace the value under a key, or append the pair
when the key is absent. -/
def setQueryParam (q : List (String × String)) (k v : String) : List (String × String) :=
  match q with
  | [] => [(k, v)]
  | (k₀, v₀) :: rest => if k₀ = k then (k, v) :: rest else (k₀, v₀) :: setQueryParam rest k v

/-- The query-parameter block of `get`: `$top` and `$skip` are set when
positive, `$orderby` and `$filter` when non-empty (client.go lines
109-124).  The endpoints of this client carry no pre-existing query, so
the map starts empty. -/
def buildQuery (o : PaginationOptions) : List (String × String) :=
  let q : List (String × String) := []
  let q := if 0 < o.top then setQueryParam q "$top" (toString o.top) else q
  let q := if 0 < o.skip then setQueryParam q "$skip" (toString o.skip) else q
  let q := if o.orderBy ≠ "" then setQueryParam q "$orderby" o.orderBy else q
  let q := if o.filter ≠ "" then setQueryParam q "$filter" o.filter else q
  q

/-- URL resolution of `get` (client.go lines 100-124): a non-empty
continuation link is parsed and used as the full target URL and the query
block is skipped entirely; otherwise the endpoint is resolved against the
base URL and the recognized options are encoded. -/
def getRequestTarget (baseURL endpoint : String) (options : Option PaginationOptions) :
    RequestTarget :=
  match options with
  | some o =>
      if o.nextLink ≠ "" then .fromNextLink o.nextLink
      else .fromBase (baseURL ++ endpoint) (buildQuery o)
  | none => .fromBase (baseURL ++ endpoint) []

/-! ## Error types and response handling (`get`, client.go lines 79-165) -/

/-- `AvalaraError` struct: the typed API error. -/
structure AvalaraError where
  code : String := ""
  message : String := ""
  target : String := ""
  details : String := ""
  deriving Repr, DecidableEq

/-- `AvalaraErrorResponse`: wrapper shape of an error body. -/
structure AvalaraErrorResponse where
  error : AvalaraError
  deriving Repr, DecidableEq

/-- The distinct error shapes `get` can return: a typed API error (also
used for the "FormatException" decode failure), the generic
"unexpected status code: %d" error, and wrapped transport errors. -/
inductive ClientError where
  | api (e : AvalaraError)
  | unexpectedStatus (status : Int)
  | transport (msg : String)
  deriving Repr, DecidableEq

/-- The `Error()` string of each error shape. -/
def ClientError.render : ClientError → String
  | .api e =>
      "AvalaraError: " ++ e.message ++ " (Code: " ++ e.code ++ ", Target: " ++
        e.target ++ ", Details: " ++ e.details ++ ")"
  | .unexpectedStatus status => "unexpected status code: " ++ toString status
  | .transport msg => msg

/-- The FormatException error built by `get` on a decode failure of a
success body (client.go lines 156-162). -/
def formatException (details : String) : AvalaraError :=
  { code := "FormatException"
    message := "The server returned the response in an unexpected format"
    target := ""
    details := details }

/-- Response handling of `get` (client.go lines 148-164).  The two
`json.Unmarshal` calls are abstracted as oracles: `errBody` is the result
of parsing the body as an `AvalaraErrorResponse` (`none` when the parse
fails) and `decoded` is the result of decoding the body into the
caller-supplied target type (`Except.error` carries the decode error
text).  Outside [200,300) a parsed error body with a non-empty code is
returned as the typed error, otherwise the generic status error; inside,
a decode failure becomes a FormatException. -/
def handleResponse {α : Type} (status : Int) (errBody : Option AvalaraErrorResponse)
    (decoded : Except String α) : Except ClientError α :=
  if status < 200 ∨ 300 ≤ status then
    match errBody with
    | some errorResp =>
        if errorResp.error.code ≠ "" then .error (.api errorResp.error)
        else .error (.unexpectedStatus status)
    | none => .error (.unexpectedStatus status)
  else
    match decoded with
    | .ok r => .ok r
    | .error msg => .error (.api (formatException msg))

/-! ## Response envelopes and domain records (client.go lines 227-330) -/

/-- `AccountModel`. -/
structure AccountModel where
  id : Int := 0
  name : String := ""
  effectiveDate : String := ""
  accountStatusID : String := ""
  accountTypeID : String := ""
  isSamlEnabled : Bool := false
  isDeleted : Bool := false
  deriving Repr, DecidableEq

/-- `AccountResponse` envelope. -/
structure AccountResponse where
  recordsetCount : Int := 0
  value : List AccountModel := []
  nextLink : String := ""
  pageKey : String := ""
  deriving Repr, DecidableEq

/-- `GetNextLink` for `AccountResponse`. -/
def AccountResponse.getNextLink (r : AccountResponse) : String := r.nextLink

/-- `UserModel`. -/
structure UserModel where
  id : Int := 0
  accountID : Int := 0
  companyID : Int := 0
  userName : String := ""
  firstName : String := ""
  lastName : String := ""
  email : String := ""
  postalCode : String := ""
  securityRoleID : String := ""
  passwordStatus : String := ""
  isActive : Bool := false
  suppressNewUserEmail : Bool := false
  isDeleted : Bool := false
  deriving Repr, DecidableEq

/-- `UserResponse` envelope. -/
structure UserResponse where
  recordsetCount : Int := 0
  value : List UserModel := []
  nextLink : String := ""
  pageKey : String := ""
  deriving Repr, DecidableEq

/-- `GetNextLink` for `UserResponse`. -/
def UserResponse.getNextLink (r : UserResponse) : String := r.nextLink

/-- `SecurityRoleModel`. -/
structure SecurityRoleModel where
  id : Int := 0
  description : String := ""
  deriving Repr, DecidableEq

/-- `SecurityRoleResponse` envelope. -/
structure SecurityRoleResponse where
  recordsetCount : Int := 0
  value : List SecurityRoleModel := []
  nextLink : String := ""
  pageKey : String := ""
  deriving Repr, DecidableEq

/-- `GetNextLink` for `SecurityRoleResponse`. -/
def SecurityRoleResponse.getNextLink (r : SecurityRoleResponse) : String := r.nextLink

/-- `PermissionResponse` envelope. -/
structure PermissionResponse where
  recordsetCount : Int := 0
  value : List String := []
  nextLink : String := ""
  pageKey : String := ""
  deriving Repr, DecidableEq

/-- `GetNextLink` for `PermissionResponse`. -/
def PermissionResponse.getNextLink (r : PermissionResponse) : String := r.nextLink

/-- `PingResponse`. -/
structure PingResponse where
  version : String := ""
  authenticated : Bool := false
  authenticationType : String := ""
  authenticatedUserName : String := ""
  authenticatedUserID : Int := 0
  authenticatedAccountID : Int := 0
  authenticatedCompanyID : Int := 0
  crmid : String := ""
  deriving Repr, DecidableEq

/-! ## Paginated accessors (client.go lines 167-214, 332-340)

The HTTP round-trip plus body handling is abstracted as an oracle
`doGet : String → Option PaginationOptions → Except ClientError R`
mapping the endpoint and the supplied options to the outcome of `get`. -/

/-- `updatePaginationOptions` (client.go lines 167-174): a nil options
value is replaced by a fresh zero value, then the `NextLink` field is set
to the response envelope's next-link.  The `PaginatedResponse` interface
dispatch is the `getNL` projection. -/
def updatePaginationOptions {R : Type} (getNL : R → String)
    (options : Option PaginationOptions) (response : R) : PaginationOptions :=
  let o : PaginationOptions := match options with
    | none => {}
    | some o => o
  { o with nextLink := getNL response }

/-- `GetUserRoles`: on failure the supplied options are handed back
untouched with a nil response; on success the options are updated with
the envelope's next-link. -/
def getUserRoles (doGet : String → Option PaginationOptions → Except ClientError SecurityRoleResponse)
    (options : Option PaginationOptions) :
    Option SecurityRoleResponse × Option PaginationOptions × Option ClientError :=
  match doGet "/api/v2/definitions/securityroles" options with
  | .error e => (none, options, some e)
  | .ok result =>
      (some result, some (updatePaginationOptions SecurityRoleResponse.getNextLink options result), none)

/-- `GetAccounts`. -/
def getAccounts (doGet : String → Option PaginationOptions → Except ClientError AccountResponse)
    (options : Option PaginationOptions) :
    Option AccountResponse × Option PaginationOptions × Option ClientError :=
  match doGet "/api/v2/accounts" options with
  | .error e => (none, options, some e)
  | .ok result =>
      (some result, some (updatePaginationOptions AccountResponse.getNextLink options result), none)

/-- `GetUsers`. -/
def getUsers (doGet : String → Option PaginationOptions → Except ClientError UserResponse)
    (options : Option PaginationOptions) :
    Option UserResponse × Option PaginationOptions × Option ClientError :=
  match doGet "/api/v2/users" options with
  | .error e => (none, options, some e)
  | .ok result =>
      (some result, some (updatePaginationOptions UserResponse.getNextLink options result), none)

/-- `GetPermissions`. -/
def getPermissions (doGet : String → Option PaginationOptions → Except ClientError PermissionResponse)
    (options : Option PaginationOptions) :
    Option PermissionResponse × Option PaginationOptions × Option ClientError :=
  match doGet "/api/v2/definitions/permissions" options with
  | .error e => (none, options, some e)
  | .ok result =>
      (some result, some (updatePaginationOptions PermissionResponse.getNextLink options result), none)

/-- `Ping` (client.go lines 332-340): a plain GET of the ping endpoint
with nil options. -/
def ping (doGet : String → Option PaginationOptions → Except ClientError PingResponse) :
    Except ClientError PingResponse :=
  doGet "/api/v2/utilities/ping" none

/-! ## Connector facade (connector.go lines 42-56) -/

/-- `Validate`: an error from `Ping` is wrapped and surfaced; a ping
response with `authenticated=false` is reported as an authentication
failure; otherwise validation succeeds (`none`). -/
def validate (pingResult : Except ClientError PingResponse) : Option String :=
  match pingResult with
  | .error e => some ("failed to validate Avalara connection: " ++ e.render)
  | .ok pingResponse =>
      if !pingResponse.authenticated then some "Avalara authentication failed"
      else none

/-! ## Role mapper (roles.go) -/

/-- `RoleMemberEntitlement` constant. -/
def RoleMemberEntitlement : String := "member"

/-- The role resource produced by `rs.NewRoleResource` in
`roleBuilder.List`: display name, resource id, and the two profile
fields set by `WithRoleProfile`. -/
structure RoleResource where
  displayName : String
  id : String
  profileId : String
  profileDescription : String
  deriving Repr, DecidableEq

/-- Mapping of one `SecurityRoleModel` to a role resource
(roles.go lines 50-61). -/
def mkRoleResource (role : SecurityRoleModel) : RoleResource :=
  { displayName := role.description
    id := toString role.id
    profileId := toString role.id
    profileDescription := role.description }

/-- `roleBuilder.List` (roles.go lines 33-75): page size 100, the page
token (when present and non-empty) becomes the continuation link, the
returned roles are mapped one-to-one, and the next page token is the
updated options' next-link when non-empty. -/
def rolesList (doGet : String → Option PaginationOptions → Except ClientError SecurityRoleResponse)
    (pToken : Option String) : Except String (List RoleResource × String) :=
  let options : PaginationOptions := { top := 100 }
  let options := match pToken with
    | some t => if t ≠ "" then { options with nextLink := t } else options
    | none => options
  match getUserRoles doGet (some options) with
  | (_, _, some _) => .error "avalara-connector: failed to list roles"
  | (some roles, nextOptions, none) =>
      let rv := roles.value.map mkRoleResource
      let nextPageToken := match nextOptions with
        | some o => if o.nextLink ≠ "" then o.nextLink else ""
        | none => ""
      .ok (rv, nextPageToken)
  | (none, _, none) => .error "avalara-connector: nil response"

/-- A role-to-user membership grant built by
`grant.NewGrant(resource, RoleMemberEntitlement, userID)` with the user
resource id `strconv.Itoa(user.ID)`. -/
structure Grant where
  resourceId : String
  entitlement : String
  principalId : String
  deriving Repr, DecidableEq

/-- The user-scanning loop of `roleBuilder.Grants` (roles.go lines
112-121): one grant per user whose `securityRoleId` equals the role
description, in page order. -/
def grantsForUsers (resource : RoleResource) (roleDescription : String) :
    List UserModel → List Grant
  | [] => []
  | user :: rest =>
      if user.securityRoleID = roleDescription then
        { resourceId := resource.id
          entitlement := RoleMemberEntitlement
          principalId := toString user.id } :: grantsForUsers resource roleDescription rest
      else grantsForUsers resource roleDescription rest

/-- `roleBuilder.Grants` (roles.go lines 86-129): the role description is
read from the resource profile, one users page is fetched with page size
100 (or the continuation token), matching users yield grants, and the
next page token is the updated options' next-link when non-empty. -/
def roleGrants (doGet : String → Option PaginationOptions → Except ClientError UserResponse)
    (resource : RoleResource) (pToken : Option String) :
    Except String (List Grant × String) :=
  let roleDescription := resource.profileDescription
  let options : PaginationOptions := { top := 100 }
  let options := match pToken with
    | some t => if t ≠ "" then { options with nextLink := t } else options
    | none => options
  match getUsers doGet (some options) with
  | (_, _, some _) => .error "avalara-connector: failed to list users"
  | (some users, nextOptions, none) =>
      let rv := grantsForUsers resource roleDescription users.value
      let nextPageToken := match nextOptions with
        | some o => if o.nextLink ≠ "" then o.nextLink else ""
        | none => ""
      .ok (rv, nextPageToken)
  | (none, _, none) => .error "avalara-connector: nil response"

/-! ## Concrete scenario fixtures -/

/-- First role page of the two-page scenario: roles 1 and 2 and a
non-empty next-link. -/
def rolePage1 : SecurityRoleResponse :=
  { recordsetCount := 4
    value := [{ id := 1, description := "SystemAdmin" },
              { id := 2, description := "AccountAdmin" }]
    nextLink := "https://rest.avatax.com/api/v2/definitions/securityroles?$skip=2&$top=100" }

/-- Second role page: roles 3 and 4, no next-link. -/
def rolePage2 : SecurityRoleResponse :=
  { recordsetCount := 4
    value := [{ id := 3, description := "CompanyAdmin" },
              { id := 4, description := "CompanyUser" }] }

/-- An oracle serving the two role pages: a fresh query returns page 1;
the continuation issued by page 1 returns page 2. -/
def twoPageRoleServer (endpoint : String) (options : Option PaginationOptions) :
    Except ClientError SecurityRoleResponse :=
  if endpoint ≠ "/api/v2/definitions/securityroles" then .error (.transport "unknown endpoint")
  else match options with
    | none => .ok rolePage1
    | some o =>
        if o.nextLink = "" then .ok rolePage1
        else if o.nextLink = rolePage1.nextLink then .ok rolePage2
        else .error (.transport "unknown page")

/-- The users page of the grant-derivation scenario: user 1 holds role
"AccountUser", user 2 holds role "AccountAdmin". -/
def grantUserPage : UserResponse :=
  { value := [{ id := 1, securityRoleID := "AccountUser" },
              { id := 2, securityRoleID := "AccountAdmin" }] }

/-- A role resource whose description is "AccountUser". -/
def accountUserRole : RoleResource := mkRoleResource { id := 5, description := "AccountUser" }

/-! ## Theorems -/

/-- C1: URL resolution of the transport wrapper `get`: a non-empty
continuation link is used verbatim as the target URL, independent of the
Top, Skip, OrderBy and Filter fields; otherwise the endpoint is resolved
against the base URL and exactly the positive/non-empty options appear in
the query, under their `$top`, `$skip`, `$orderby`, `$filter` keys. -/
theorem c1_get_request_target (baseURL endpoint : String) (o : PaginationOptions) :
    (o.nextLink ≠ "" →
      getRequestTarget baseURL endpoint (some o) = .fromNextLink o.nextLink ∧
      ∀ o' : PaginationOptions, o'.nextLink = o.nextLink →
        getRequestTarget baseURL endpoint (some o') =
          getRequestTarget baseURL endpoint (some o)) ∧
    (o.nextLink = "" →
      getRequestTarget baseURL endpoint (some o) =
        .fromBase (baseURL ++ endpoint) (buildQuery o) ∧
      (buildQuery o).lookup "$top" = (if 0 < o.top then some (toString o.top) else none) ∧
      (buildQuery o).lookup "$skip" = (if 0 < o.skip then some (toString o.skip) else none) ∧
      (buildQuery o).lookup "$orderby" = (if o.orderBy ≠ "" then some o.orderBy else none) ∧
      (buildQuery o).lookup "$filter" = (if o.filter ≠ "" then some o.filter else none) ∧
      ∀ kv ∈ buildQuery o,
        kv.1 = "$top" ∨ kv.1 = "$skip" ∨ kv.1 = "$orderby" ∨ kv.1 = "$filter") := by
  constructor
  · intro h
    refine ⟨by simp [getRequestTarget, h], ?_⟩
    intro o' h'
    simp [getRequestTarget, h', h]
  · intro h
    refine ⟨by simp [getRequestTarget, h], ?_⟩
    by_cases ht : 0 < o.top <;> by_cases hs : 0 < o.skip <;>
      by_cases ho : o.orderBy = "" <;> by_cases hf : o.filter = "" <;>
      simp [buildQuery, setQueryParam, ht, hs, ho, hf, List.lookup]

/-- Closed instance of `c1_get_request_target`: a call carrying a
continuation resolves to that link verbatim; a fresh call resolves
against the base URL. -/
theorem c1_get_request_target_witness :
    getRequestTarget ProductionBaseURL "/api/v2/users"
        (some { top := 100,
                nextLink := "https://rest.avatax.com/api/v2/users?$skip=2&$top=100" }) =
      .fromNextLink "https://rest.avatax.com/api/v2/users?$skip=2&$top=100" ∧
    getRequestTarget ProductionBaseURL "/api/v2/users" (some { top := 100 }) =
      .fromBase (ProductionBaseURL ++ "/api/v2/users") (buildQuery { top := 100 }) :=
  ⟨((c1_get_request_target ProductionBaseURL "/api/v2/users" _).1 (by decide)).1,
   ((c1_get_request_target ProductionBaseURL "/api/v2/users" _).2 rfl).1⟩

/-- C2 counterexample: the environment string "http://example.com" is
neither "sandbox" nor "test", yet the selected base URL is the
environment string itself, not the production URL (nor any of the three
fixed URLs): `NewAvalaraClient` uses any environment whose lowercase form
starts with "http" verbatim as the base URL. -/
theorem c2_env_http_counterexample :
    selectBaseURL "http://example.com" = "http://example.com" ∧
    "http://example.com" ≠ "sandbox" ∧
    "http://example.com" ≠ "test" ∧
    selectBaseURL "http://example.com" ≠ ProductionBaseURL ∧
    selectBaseURL "http://example.com" ≠ SandboxBaseURL ∧
    selectBaseURL "http://example.com" ≠ TestBaseURL := by
  refine ⟨by decide, by decide, by decide, by decide, by decide, by decide⟩

/-- C2 (amended): when the environment's lowercase form does not start
with "http", the base URL is one of the three fixed URLs — "sandbox"
selects the sandbox URL, "test" the local test URL, anything else falls
back to production; an environment whose lowercase form starts with
"http" is used verbatim as the base URL. -/
theorem c2_base_url_selection (environment : String) :
    (strStartsWith (strToLower environment) "http" = true →
      selectBaseURL environment = environment) ∧
    (strStartsWith (strToLower environment) "http" = false →
      (environment = "sandbox" → selectBaseURL environment = SandboxBaseURL) ∧
      (environment = "test" → selectBaseURL environment = TestBaseURL) ∧
      (environment ≠ "sandbox" → environment ≠ "test" →
        selectBaseURL environment = ProductionBaseURL) ∧
      (selectBaseURL environment = SandboxBaseURL ∨
       selectBaseURL environment = TestBaseURL ∨
       selectBaseURL environment = ProductionBaseURL)) := by
  constructor
  · intro h
    simp [selectBaseURL, h]
  · intro h
    refine ⟨?_, ?_, ?_, ?_⟩
    · intro hs
      subst hs
      decide
    · intro ht
      subst ht
      decide
    · intro hs ht
      simp [selectBaseURL, h, hs, ht]
    · by_cases hs : environment = "sandbox"
      · subst hs
        decide
      · by_cases ht : environment = "test"
        · subst ht
          decide
        · simp [selectBaseURL, h, hs, ht]

/-- Closed instance of `c2_base_url_selection` at each selector kind. -/
theorem c2_base_url_selection_witness :
    selectBaseURL "sandbox" = SandboxBaseURL ∧
    selectBaseURL "test" = TestBaseURL ∧
    selectBaseURL "production" = ProductionBaseURL ∧
    selectBaseURL "HTTPS://custom.example" = "HTTPS://custom.example" :=
  ⟨(((c2_base_url_selection "sandbox").2 (by decide)).1 rfl),
   (((c2_base_url_selection "test").2 (by decide)).2.1 rfl),
   (((c2_base_url_selection "production").2 (by decide)).2.2.1 (by decide) (by decide)),
   ((c2_base_url_selection "HTTPS://custom.example").1 (by decide))⟩

/-- The user-scanning loop of `Grants` produces exactly the grants of the
users whose `securityRoleId` equals the role description, in order. -/
theorem grantsForUsers_eq_filter_map (resource : RoleResource) (desc : String)
    (users : List UserModel) :
    grantsForUsers resource desc users =
      (users.filter (fun u => u.securityRoleID == desc)).map
        (fun u => { resourceId := resource.id
                    entitlement := RoleMemberEntitlement
                    principalId := toString u.id }) := by
  induction users with
  | nil => rfl
  | cons u rest ih =>
      by_cases h : u.securityRoleID = desc <;>
        simp [grantsForUsers, List.filter_cons, h, ih]

/-- C3: for every users page, `roleBuilder.Grants` emits exactly one
grant (role resource → user resource) per user whose `securityRoleId`
equals the role's profile description, and no other grants; on the
concrete page `[⟨1, "AccountUser"⟩, ⟨2, "AccountAdmin"⟩]` with a role
described "AccountUser" it returns exactly one grant, to user id 1. -/
theorem c3_role_grants (resource : RoleResource) (page : UserResponse)
    (doGet : String → Option PaginationOptions → Except ClientError UserResponse)
    (pToken : Option String)
    (h : ∀ opts, doGet "/api/v2/users" opts = .ok page) :
    roleGrants doGet resource pToken =
      .ok ((page.value.filter (fun u => u.securityRoleID == resource.profileDescription)).map
            (fun u => { resourceId := resource.id
                        entitlement := RoleMemberEntitlement
                        principalId := toString u.id }),
           page.nextLink) ∧
    roleGrants (fun _ _ => .ok grantUserPage) accountUserRole none =
      .ok ([{ resourceId := accountUserRole.id
              entitlement := RoleMemberEntitlement
              principalId := "1" }], "") := by
  constructor
  · simp only [roleGrants, getUsers, h, updatePaginationOptions,
      UserResponse.getNextLink, grantsForUsers_eq_filter_map]
    by_cases hn : page.nextLink = "" <;> simp [hn]
  · rfl

/-- Closed instance of `c3_role_grants` on the concrete users page and
the "AccountUser" role. -/
theorem c3_role_grants_witness :
    roleGrants (fun _ _ => .ok grantUserPage) accountUserRole none =
      .ok ((grantUserPage.value.filter
              (fun u => u.securityRoleID == accountUserRole.profileDescription)).map
            (fun u => { resourceId := accountUserRole.id
                        entitlement := RoleMemberEntitlement
                        principalId := toString u.id }),
           grantUserPage.nextLink) :=
  (c3_role_grants accountUserRole grantUserPage (fun _ _ => .ok grantUserPage) none
    (fun _ => rfl)).1

/-- C4: outside [200,300), a body parsing as a structured error object
with a non-empty code yields the typed API error exposing that object;
a body that does not parse that way (or parses with an empty code) yields
the generic status-code error. -/
theorem c4_error_status_handling {α : Type} (status : Int)
    (errBody : Option AvalaraErrorResponse) (decoded : Except String α)
    (hstatus : status < 200 ∨ 300 ≤ status) :
    (∀ er, errBody = some er → er.error.code ≠ "" →
      handleResponse status errBody decoded = .error (.api er.error)) ∧
    ((∀ er, errBody = some er → er.error.code = "") →
      handleResponse status errBody decoded = .error (.unexpectedStatus status)) := by
  constructor
  · intro er her hcode
    subst her
    simp [handleResponse, hstatus, hcode]
  · intro hempty
    cases errBody with
    | none => simp [handleResponse, hstatus]
    | some er => simp [handleResponse, hstatus, hempty er rfl]

/-- Closed instance of `c4_error_status_handling`: a 401 with the body
`error.code = "AuthenticationException"`, `error.message = "bad creds"`
yields the typed error exposing that code; a 500 with an unparseable body
yields the generic status error. -/
theorem c4_error_status_handling_witness :
    handleResponse 401
        (some { error := { code := "AuthenticationException", message := "bad creds" } })
        (Except.error "no body" : Except String PingResponse) =
      .error (.api { code := "AuthenticationException", message := "bad creds" }) ∧
    handleResponse 500 none (Except.error "no body" : Except String PingResponse) =
      .error (.unexpectedStatus 500) :=
  ⟨(c4_error_status_handling 401
      (some { error := { code := "AuthenticationException", message := "bad creds" } })
      (Except.error "no body" : Except String PingResponse) (by decide)).1 _ rfl (by decide),
   (c4_error_status_handling 500 none (Except.error "no body" : Except String PingResponse)
      (by decide)).2 (fun er her => by cases her)⟩

/-- C5: inside [200,300), a decode failure of the success body yields the
typed "FormatException" error carrying the decode failure text in its
details — an error distinct from every status-code error — and a body
that decodes yields no error. -/
theorem c5_format_error {α : Type} (status : Int) (errBody : Option AvalaraErrorResponse)
    (msg : String) (h1 : 200 ≤ status) (h2 : status < 300) :
    (handleResponse status errBody (Except.error msg : Except String α) =
      .error (.api (formatException msg)) ∧
     (formatException msg).code = "FormatException" ∧
     (formatException msg).details = msg ∧
     ∀ n : Int, ClientError.api (formatException msg) ≠ .unexpectedStatus n) ∧
    (∀ r : α, handleResponse status errBody (Except.ok r) = .ok r) := by
  have hcond : ¬(status < 200 ∨ 300 ≤ status) := by omega
  exact ⟨⟨by simp [handleResponse, hcond], rfl, rfl, fun n => by simp⟩,
         fun r => by simp [handleResponse, hcond]⟩

/-- Closed instance of `c5_format_error` at status 200. -/
theorem c5_format_error_witness :
    handleResponse 200 none
        (Except.error "invalid character" : Except String PingResponse) =
      .error (.api (formatException "invalid character")) ∧
    handleResponse 200 none (Except.ok ({ authenticated := true } : PingResponse)) =
      .ok ({ authenticated := true } : PingResponse) :=
  ⟨(c5_format_error 200 none "invalid character" (by decide) (by decide)).1.1,
   (c5_format_error (α := PingResponse) 200 none "invalid character"
      (by decide) (by decide)).2 { authenticated := true }⟩

/-- C6: `AddCredentials` stores exactly `base64(username ++ ":" ++
password)` (here evaluated on "user"/"pass" and on the empty pair), and
every request built by `get` carries the header
`Authorization: Basic <stored credential>`. -/
theorem c6_credentials (c : AvalaraClient) (username password : String) :
    (addCredentials c username password).credentials =
      base64EncodeString (username ++ ":" ++ password) ∧
    ("Authorization",
      "Basic " ++ base64EncodeString (username ++ ":" ++ password)) ∈
      requestHeaders (addCredentials c username password) ∧
    (addCredentials c "user" "pass").credentials = "dXNlcjpwYXNz" ∧
    (addCredentials c "" "").credentials = "Og==" := by
  refine ⟨rfl, ?_, rfl, rfl⟩
  simp [requestHeaders, addCredentials]

/-- C7: consuming the two role pages (the second fetched via the first
page's next-link token) through `roleBuilder.List` yields the four mapped
role resources — page 1 yields roles 1 and 2 together with the non-empty
next-link as page token, page 2 (requested with that token) yields roles
3 and 4 and an empty token — with four distinct resource ids, no
duplicates, and the role id and description in each profile. -/
theorem c7_two_page_role_listing :
    rolesList twoPageRoleServer (some "") =
      .ok (rolePage1.value.map mkRoleResource, rolePage1.nextLink) ∧
    rolePage1.nextLink ≠ "" ∧
    rolesList twoPageRoleServer (some rolePage1.nextLink) =
      .ok (rolePage2.value.map mkRoleResource, "") ∧
    (rolePage1.value ++ rolePage2.value).map mkRoleResource =
      [{ displayName := "SystemAdmin", id := "1",
         profileId := "1", profileDescription := "SystemAdmin" },
       { displayName := "AccountAdmin", id := "2",
         profileId := "2", profileDescription := "AccountAdmin" },
       { displayName := "CompanyAdmin", id := "3",
         profileId := "3", profileDescription := "CompanyAdmin" },
       { displayName := "CompanyUser", id := "4",
         profileId := "4", profileDescription := "CompanyUser" }] ∧
    ((rolePage1.value ++ rolePage2.value).map mkRoleResource).length = 4 ∧
    (((rolePage1.value ++ rolePage2.value).map mkRoleResource).map RoleResource.id).Nodup ∧
    ((rolePage1.value ++ rolePage2.value).map mkRoleResource).Nodup :=
  ⟨rfl, by decide, rfl, by decide, by decide, by decide, by decide⟩

/-- C8: `Validate` succeeds exactly when the ping call succeeds and the
ping response reports `authenticated = true`; it reports an error exactly
when the ping call fails or the response reports `authenticated = false`. -/
theorem c8_validate (pingResult : Except ClientError PingResponse) :
    (validate pingResult = none ↔
      ∃ r, pingResult = .ok r ∧ r.authenticated = true) ∧
    ((validate pingResult).isSome = true ↔
      (∃ e, pingResult = .error e) ∨
      ∃ r, pingResult = .ok r ∧ r.authenticated = false) := by
  cases pingResult with
  | error e => simp [validate]
  | ok r => cases hr : r.authenticated <;> simp [validate, hr]

/-- Closed instance of `c8_validate`: an authenticated ping passes
validation; a transport failure and an unauthenticated ping do not. -/
theorem c8_validate_witness :
    validate (Except.ok ({ authenticated := true } : PingResponse)) = none ∧
    (validate (Except.error (ClientError.transport "connection refused"))).isSome = true ∧
    (validate (Except.ok ({ authenticated := false } : PingResponse))).isSome = true :=
  ⟨(c8_validate (Except.ok { authenticated := true })).1.mpr ⟨_, rfl, rfl⟩,
   (c8_validate (Except.error (ClientError.transport "connection refused"))).2.mpr
     (Or.inl ⟨_, rfl⟩),
   (c8_validate (Except.ok { authenticated := false })).2.mpr (Or.inr ⟨_, rfl, rfl⟩)⟩

/-- C9: when the underlying request fails, each accessor returns a nil
response, the very options value it was given (continuation link not
advanced), and the error. -/
theorem c9_error_returns_given_options
    (dRoles : String → Option PaginationOptions → Except ClientError SecurityRoleResponse)
    (dAccounts : String → Option PaginationOptions → Except ClientError AccountResponse)
    (dUsers : String → Option PaginationOptions → Except ClientError UserResponse)
    (dPerms : String → Option PaginationOptions → Except ClientError PermissionResponse)
    (options : Option PaginationOptions) (e : ClientError)
    (hR : dRoles "/api/v2/definitions/securityroles" options = .error e)
    (hA : dAccounts "/api/v2/accounts" options = .error e)
    (hU : dUsers "/api/v2/users" options = .error e)
    (hP : dPerms "/api/v2/definitions/permissions" options = .error e) :
    getUserRoles dRoles options = (none, options, some e) ∧
    getAccounts dAccounts options = (none, options, some e) ∧
    getUsers dUsers options = (none, options, some e) ∧
    getPermissions dPerms options = (none, options, some e) := by
  refine ⟨?_, ?_, ?_, ?_⟩ <;>
    simp [getUserRoles, getAccounts, getUsers, getPermissions, hR, hA, hU, hP]

/-- Closed instance of `c9_error_returns_given_options` on a transport
failure with a mid-pagination options value. -/
theorem c9_error_returns_given_options_witness :
    getUserRoles (fun _ _ => .error (.transport "connection refused"))
        (some { top := 100, nextLink := "https://rest.avatax.com/x?$skip=2" }) =
      (none, some { top := 100, nextLink := "https://rest.avatax.com/x?$skip=2" },
       some (.transport "connection refused")) ∧
    getAccounts (fun _ _ => .error (.transport "connection refused"))
        (some { top := 100, nextLink := "https://rest.avatax.com/x?$skip=2" }) =
      (none, some { top := 100, nextLink := "https://rest.avatax.com/x?$skip=2" },
       some (.transport "connection refused")) ∧
    getUsers (fun _ _ => .error (.transport "connection refused"))
        (some { top := 100, nextLink := "https://rest.avatax.com/x?$skip=2" }) =
      (none, some { top := 100, nextLink := "https://rest.avatax.com/x?$skip=2" },
       some (.transport "connection refused")) ∧
    getPermissions (fun _ _ => .error (.transport "connection refused"))
        (some { top := 100, nextLink := "https://rest.avatax.com/x?$skip=2" }) =
      (none, some { top := 100, nextLink := "https://rest.avatax.com/x?$skip=2" },
       some (.transport "connection refused")) :=
  c9_error_returns_given_options _ _ _ _ _ _ rfl rfl rfl rfl

/-- C10: on success with non-nil options, each accessor returns options
differing from the input only in the next-link field, which becomes the
response envelope's next-link (empty exactly when the envelope carried
none); page size, offset, sort and filter are unchanged.  Go mutates the
caller's options object in place; in this state-passing model that is the
returned updated options value. -/
theorem c10_success_updates_only_next_link
    (dRoles : String → Option PaginationOptions → Except ClientError SecurityRoleResponse)
    (dAccounts : String → Option PaginationOptions → Except ClientError AccountResponse)
    (dUsers : String → Option PaginationOptions → Except ClientError UserResponse)
    (dPerms : String → Option PaginationOptions → Except ClientError PermissionResponse)
    (o : PaginationOptions)
    (rR : SecurityRoleResponse) (rA : AccountResponse) (rU : UserResponse)
    (rP : PermissionResponse)
    (hR : dRoles "/api/v2/definitions/securityroles" (some o) = .ok rR)
    (hA : dAccounts "/api/v2/accounts" (some o) = .ok rA)
    (hU : dUsers "/api/v2/users" (some o) = .ok rU)
    (hP : dPerms "/api/v2/definitions/permissions" (some o) = .ok rP) :
    (∃ o₁, getUserRoles dRoles (some o) = (some rR, some o₁, none) ∧
      o₁.top = o.top ∧ o₁.skip = o.skip ∧ o₁.orderBy = o.orderBy ∧
      o₁.filter = o.filter ∧ o₁.nextLink = rR.getNextLink ∧
      (o₁.nextLink = "" ↔ rR.nextLink = "")) ∧
    (∃ o₂, getAccounts dAccounts (some o) = (some rA, some o₂, none) ∧
      o₂.top = o.top ∧ o₂.skip = o.skip ∧ o₂.orderBy = o.orderBy ∧
      o₂.filter = o.filter ∧ o₂.nextLink = rA.getNextLink ∧
      (o₂.nextLink = "" ↔ rA.nextLink = "")) ∧
    (∃ o₃, getUsers dUsers (some o) = (some rU, some o₃, none) ∧
      o₃.top = o.top ∧ o₃.skip = o.skip ∧ o₃.orderBy = o.orderBy ∧
      o₃.filter = o.filter ∧ o₃.nextLink = rU.getNextLink ∧
      (o₃.nextLink = "" ↔ rU.nextLink = "")) ∧
    (∃ o₄, getPermissions dPerms (some o) = (some rP, some o₄, none) ∧
      o₄.top = o.top ∧ o₄.skip = o.skip ∧ o₄.orderBy = o.orderBy ∧
      o₄.filter = o.filter ∧ o₄.nextLink = rP.getNextLink ∧
      (o₄.nextLink = "" ↔ rP.nextLink = "")) := by
  refine ⟨⟨{ o with nextLink := rR.nextLink }, ?_, rfl, rfl, rfl, rfl, rfl, Iff.rfl⟩,
          ⟨{ o with nextLink := rA.nextLink }, ?_, rfl, rfl, rfl, rfl, rfl, Iff.rfl⟩,
          ⟨{ o with nextLink := rU.nextLink }, ?_, rfl, rfl, rfl, rfl, rfl, Iff.rfl⟩,
          ⟨{ o with nextLink := rP.nextLink }, ?_, rfl, rfl, rfl, rfl, rfl, Iff.rfl⟩⟩ <;>
    simp [getUserRoles, getAccounts, getUsers, getPermissions, hR, hA, hU, hP,
      updatePaginationOptions, SecurityRoleResponse.getNextLink, AccountResponse.getNextLink,
      UserResponse.getNextLink, PermissionResponse.getNextLink]

/-- Closed instance of `c10_success_updates_only_next_link`: a page with
a next-link advances only the continuation of the supplied options. -/
theorem c10_success_updates_only_next_link_witness :
    (∃ o₁, getUserRoles (fun _ _ => .ok rolePage1)
        (some { top := 100, skip := 5, orderBy := "name", filter := "isActive eq true" }) =
        (some rolePage1, some o₁, none) ∧
      o₁.top = 100 ∧ o₁.skip = 5 ∧ o₁.orderBy = "name" ∧
      o₁.filter = "isActive eq true" ∧ o₁.nextLink = rolePage1.nextLink) := by
  obtain ⟨o₁, h1, h2, h3, h4, h5, h6, -⟩ :=
    (c10_success_updates_only_next_link
      (fun _ _ => .ok rolePage1) (fun _ _ => .ok ({} : AccountResponse))
      (fun _ _ => .ok ({} : UserResponse)) (fun _ _ => .ok ({} : PermissionResponse))
      { top := 100, skip := 5, orderBy := "name", filter := "isActive eq true" }
      rolePage1 {} {} {} rfl rfl rfl rfl).1
  exact ⟨o₁, h1, h2, h3, h4, h5, h6⟩

end Avalara
